import Mathlib

set_option maxRecDepth 16000

/-!
Verification of the ip-organization component of the unifi-sdk repository.

The repository ships several variants of the IPOrganizer class; this file
models them as three namespaces:
  - BasicOrganizer: the variant with a standalone classifyDevice cascade and
    per-category counter allocation (counters started at the range offsets,
    with no bound check).
  - ScanOrganizer: the variant that classifies inline and allocates with
    getNextAvailableIP, a sequential scan over the numeric range that skips
    already-assigned addresses and throws when the range is exhausted.
  - EnhancedOrganizer: the variant with OS-metadata classification rules,
    manufacturer lookup, the unknown-device identifier and the enhanced
    device info record.

All definitions are executable translations of the TypeScript source.
JavaScript string-or-default idioms (a || b) are modelled by strOr and
jsOrOpt, which treat the empty string as falsy, exactly as JavaScript does.
The JavaScript string primitives (toLowerCase, includes, startsWith, split,
substring) are modelled by char-list functions (lowerStr, occursIn,
leadsStr, splitStr, takeStr) so that every definition evaluates inside the
kernel.
-/

/-- Char-list helper: true when the first list is an initial segment of the
second (element-wise equality). -/
def leadsChars : List Char → List Char → Bool
  | [], _ => true
  | _ :: _, [] => false
  | a :: as, b :: bs => a == b && leadsChars as bs

/-- Char-list helper: true when the first list occurs contiguously inside
the second. -/
def insideChars (p : List Char) : List Char → Bool
  | [] => p.isEmpty
  | c :: rest => leadsChars p (c :: rest) || insideChars p rest

/-- JavaScript s.includes(pat): substring containment. -/
def occursIn (s pat : String) : Bool :=
  insideChars pat.data s.data

/-- JavaScript s.startsWith(pat). -/
def leadsStr (s pat : String) : Bool :=
  leadsChars pat.data s.data

/-- ASCII lower-casing of one character, as toLowerCase acts on the ASCII
range the source compares against. -/
def lowerChar (c : Char) : Char :=
  if 65 ≤ c.toNat && c.toNat ≤ 90 then Char.ofNat (c.toNat + 32) else c

/-- JavaScript s.toLowerCase(). -/
def lowerStr (s : String) : String :=
  ⟨s.data.map lowerChar⟩

/-- JavaScript s.substring(0, n): the first n characters. -/
def takeStr (s : String) (n : Nat) : String :=
  ⟨s.data.take n⟩

/-- Char-list helper for splitStr: when the separator is an initial segment,
the remainder after it. -/
def dropLeads : List Char → List Char → Option (List Char)
  | [], l => some l
  | _ :: _, [] => none
  | a :: as, b :: bs => if a == b then dropLeads as bs else none

/-- Fuelled splitter over char lists; the fuel is the list length, so the
fuel-exhausted arm is never reached for a non-empty separator. -/
def splitFuel (sep : List Char) : Nat → List Char → List (List Char)
  | 0, l => [l]
  | _ + 1, [] => [[]]
  | fuel + 1, x :: xs =>
    match dropLeads sep (x :: xs) with
    | some rest => [] :: splitFuel sep fuel rest
    | none =>
      match splitFuel sep fuel xs with
      | [] => [[x]]
      | h :: t => (x :: h) :: t

/-- JavaScript s.split(sep) for a non-empty separator. -/
def splitStr (s sep : String) : List String :=
  (splitFuel sep.data s.data.length s.data).map (fun l => ⟨l⟩)

/-- Decimal parse of a digit string; none when empty or non-numeric (the
source only applies it to well-formed dotted-quad parts). -/
def strToNat? (s : String) : Option Nat :=
  if s.data.isEmpty then none
  else if s.data.all (fun c => 48 ≤ c.toNat && c.toNat ≤ 57) then
    some (s.data.foldl (fun n c => n * 10 + (c.toNat - 48)) 0)
  else none

/-- JavaScript (a || b) on an optional string: the empty string counts as
falsy, so it falls through to the default. -/
def strOr (a : Option String) (b : String) : String :=
  match a with
  | some s => if s == "" then b else s
  | none => b

/-- JavaScript (a || b) where both operands are optional strings. -/
def jsOrOpt (a b : Option String) : Option String :=
  match a with
  | some s => if s == "" then b else some s
  | none => b

/-- Dotted-quad string to its 32-bit numeric value, as getNextAvailableIP
computes it with shifts ((a << 24) + (b << 16) + (c << 8) + d); the
addresses used stay below 2^31 so plain Nat arithmetic agrees with the
JavaScript signed shifts. A missing or non-numeric part contributes 0. -/
def ipStrToNum (s : String) : Nat :=
  let parts := (splitStr s ".").map (fun p => (strToNat? p).getD 0)
  parts.getD 0 0 * 16777216 + parts.getD 1 0 * 65536 +
    parts.getD 2 0 * 256 + parts.getD 3 0

/-- The LocalClient record of src/types (mac, name?, hostname?, ip, flags,
counters) together with the duck-typed controller fields the organizer
reads through (client as any): os_name, device_name, signal, sw_mac,
sw_port, ap_mac, essid, radio_proto, satisfaction. -/
structure LocalClient where
  mac : String
  name : Option String
  hostname : Option String
  ip : String
  is_wired : Bool
  is_guest : Bool
  essid : Option String
  signal : Option Int
  tx_bytes : Nat
  rx_bytes : Nat
  tx_packets : Nat
  rx_packets : Nat
  uptime : Nat
  last_seen : Nat
  satisfaction : Option Nat
  os_name : Option String
  device_name : Option String
  sw_mac : Option String
  sw_port : Option Nat
  ap_mac : Option String
  radio_proto : Option String
deriving DecidableEq

/-- The DHCP reservation commit createDHCPReservation PUTs for one
organized client: (mac, fixed_ip, hostname?), where the hostname argument
is client.name || client.hostname. -/
structure Reservation where
  mac : String
  fixed_ip : String
  hostname : Option String
deriving DecidableEq

/-- A client record with every optional field absent, used as the base of
the concrete test fixtures. -/
def baseClient : LocalClient :=
  { mac := "aa:aa:aa:aa:aa:aa", name := none, hostname := none,
    ip := "10.0.10.5", is_wired := true, is_guest := false, essid := none,
    signal := none, tx_bytes := 0, rx_bytes := 0, tx_packets := 0,
    rx_packets := 0, uptime := 0, last_seen := 0, satisfaction := none,
    os_name := none, device_name := none, sw_mac := none, sw_port := none,
    ap_mac := none, radio_proto := none }

namespace BasicOrganizer

/-- The IPScheme interface: a named category with its reserved range. -/
structure IPScheme where
  name : String
  range : String
  description : String
  devices : List String
deriving DecidableEq

/-- The PERFORMANCE_OPTIMIZED_SCHEME configuration table. -/
def PERFORMANCE_OPTIMIZED_SCHEME : List IPScheme :=
  [ { name := "Infrastructure", range := "10.0.0.1 - 10.0.0.50",
      description := "Network equipment (router, switches, APs)",
      devices := ["UDM", "switches", "access points"] },
    { name := "Servers", range := "10.0.0.51 - 10.0.0.100",
      description := "Always-on servers and NAS",
      devices := ["NAS", "TrueNAS", "Plex", "Home Assistant", "Pi-hole"] },
    { name := "Computers", range := "10.0.0.101 - 10.0.0.150",
      description := "Desktop computers and workstations",
      devices := ["Desktop PCs", "iMac", "Mac Studio", "Linux boxes"] },
    { name := "Laptops & Tablets", range := "10.0.0.151 - 10.0.0.200",
      description := "Mobile computing devices",
      devices := ["MacBooks", "iPads", "Windows laptops"] },
    { name := "Phones & Watches", range := "10.0.0.201 - 10.0.0.250",
      description := "Smartphones and wearables",
      devices := ["iPhones", "Android phones", "Apple Watch"] },
    { name := "Media Devices", range := "10.0.1.1 - 10.0.1.100",
      description := "Streaming and entertainment",
      devices := ["Apple TV", "Roku", "Smart TVs", "Sonos", "Gaming consoles"] },
    { name := "IoT - Smart Home", range := "10.0.2.1 - 10.0.2.100",
      description := "Smart home automation devices",
      devices := ["Hue", "Ecobee", "Nest", "HomeKit", "AC controllers", "Smart plugs"] },
    { name := "IoT - Appliances", range := "10.0.3.1 - 10.0.3.100",
      description := "Smart appliances",
      devices := ["Smart washers", "Smart dryers", "Smart fridges", "Sleep Number"] },
    { name := "Security & Cameras", range := "10.0.4.1 - 10.0.4.100",
      description := "Security equipment",
      devices := ["Ring cameras", "Ring doorbells", "Security cameras", "MyQ garage"] },
    { name := "Guest Devices", range := "10.0.5.1 - 10.0.5.254",
      description := "Visitor devices",
      devices := ["Guest phones", "Guest laptops"] },
    { name := "DHCP Pool", range := "10.0.10.1 - 10.0.20.254",
      description := "Auto-assigned for new/temporary devices",
      devices := ["Unknown devices", "New devices before classification"] } ]

/-- The numeric [start, end] bounds a scheme entry declares, parsed from
its range string. -/
def schemeBounds (catName : String) : Option (Nat × Nat) :=
  (PERFORMANCE_OPTIMIZED_SCHEME.find? (fun s => s.name == catName)).map
    (fun s =>
      let parts := splitStr s.range " - "
      (ipStrToNum (parts.getD 0 ""), ipStrToNum (parts.getD 1 "")))

/-- Whether an address lies within the configured inclusive range of the
named category. -/
def ipInSchemeRange (catName ip : String) : Bool :=
  match schemeBounds catName with
  | some (lo, hi) => lo ≤ ipStrToNum ip && ipStrToNum ip ≤ hi
  | none => false

/-- classifyDevice of the basic variant: the textual cascade over the
lower-cased display name (client.name || client.hostname || empty) and the
lower-cased MAC. Each branch is translated in the order the source writes
it; the numeric priority is only part of the returned value. -/
def classifyDevice (client : LocalClient) : Option (String × Nat) :=
  let name := lowerStr (strOr client.name (strOr client.hostname ""))
  let mac := lowerStr client.mac
  if occursIn name "switch" || occursIn name "ap-" || occursIn name "udm" ||
      occursIn name "unifi" then
    some ("Infrastructure", 100)
  else if occursIn name "nas" || occursIn name "truenas" ||
      occursIn name "server" || occursIn name "plex" ||
      occursIn name "home assistant" || occursIn name "homeassistant" ||
      occursIn name "pihole" || occursIn name "pi-hole" then
    some ("Servers", 90)
  else if occursIn name "desktop" || occursIn name "pc-" ||
      occursIn name "imac" || occursIn name "mac-pro" ||
      occursIn name "workstation" || name == "mac" then
    some ("Computers", 80)
  else if occursIn name "macbook" || occursIn name "laptop" ||
      occursIn name "ipad" || occursIn name "surface" ||
      occursIn name "chromebook" then
    some ("Laptops & Tablets", 75)
  else if occursIn name "iphone" || occursIn name "phone" ||
      occursIn name "android" || occursIn name "watch" ||
      occursIn name "pillow" then
    some ("Phones & Watches", 70)
  else if occursIn name "appletv" || occursIn name "apple-tv" ||
      occursIn name "roku" || occursIn name "tv" || occursIn name "sonos" ||
      occursIn name "playstation" || occursIn name "xbox" ||
      occursIn name "chromecast" || occursIn name "shield" then
    some ("Media Devices", 65)
  else if occursIn name "ring" || occursIn name "camera" ||
      occursIn name "doorbell" || occursIn name "nvr" ||
      occursIn name "myq" || occursIn name "spotlight" then
    some ("Security & Cameras", 85)
  else if occursIn name "hue" || occursIn name "nest" ||
      occursIn name "ecobee" || occursIn name "homekit" ||
      occursIn name "ac-controller" || occursIn name "bedroom" ||
      occursIn name "office" || occursIn name "garage" ||
      occursIn name "master-bathroom" || occursIn name "living" ||
      leadsStr mac "d8:bf:c0" || leadsStr mac "80:7d:3a" ||
      leadsStr mac "e0:2b:96" || leadsStr mac "d4:90:9c" ||
      leadsStr mac "ac:bc:b5" || leadsStr mac "04:99:b9" then
    some ("IoT - Smart Home", 60)
  else if occursIn name "washer" || occursIn name "dryer" ||
      occursIn name "laundry" || occursIn name "fridge" ||
      occursIn name "lg_smart" || occursIn name "sleep number" ||
      occursIn name "sleepnumber" || leadsStr mac "1c:39:29" ||
      leadsStr mac "c8:dd:6a" || leadsStr mac "64:db:a0" then
    some ("IoT - Appliances", 55)
  else if occursIn name "lwip" || leadsStr mac "5c:47:5e" ||
      leadsStr mac "b0:09:da" || leadsStr mac "5a:6c:0b" ||
      leadsStr mac "cc:6a:10" || leadsStr mac "c4:29:96" then
    some ("IoT - Smart Home", 50)
  else
    none

/-- The subnet the switch statement of organizeDevicesByType selects for a
category; none corresponds to the default arm, which skips the client with
continue. -/
def subnetFor (ty : String) : Option String :=
  if ty == "Infrastructure" || ty == "Servers" || ty == "Computers" ||
      ty == "Laptops & Tablets" || ty == "Phones & Watches" then
    some "10.0.0."
  else if ty == "Media Devices" then some "10.0.1."
  else if ty == "IoT - Smart Home" then some "10.0.2."
  else if ty == "IoT - Appliances" then some "10.0.3."
  else if ty == "Security & Cameras" then some "10.0.4."
  else none

/-- One entry of the organized output of the basic variant. -/
structure OrganizedItem where
  mac : String
  currentIp : String
  assignedIp : String
  type : String
  name : String
deriving DecidableEq

/-- The ipCounters object, initialized at the start of each pass. -/
def ipCountersInit : List (String × Nat) :=
  [("Infrastructure", 1), ("Servers", 51), ("Computers", 101),
   ("Laptops & Tablets", 151), ("Phones & Watches", 201),
   ("Media Devices", 1), ("IoT - Smart Home", 1), ("IoT - Appliances", 1),
   ("Security & Cameras", 1)]

/-- Counter read (ipCounters[type]). -/
def ctrGet (ctr : List (String × Nat)) (k : String) : Nat :=
  ((ctr.find? (fun kv => kv.1 == k)).map (fun kv => kv.2)).getD 0

/-- Counter write (ipCounters[type] = v). -/
def ctrSet (ctr : List (String × Nat)) (k : String) (v : Nat) :
    List (String × Nat) :=
  ctr.map (fun kv => if kv.1 == k then (kv.1, v) else kv)

/-- The per-client loop of organizeDevicesByType: classify, then allocate
from the category counter and record the entry, or push the client to the
unclassified list. When dryRun is false a Reservation is emitted for each
organized entry (the createDHCPReservation call); dryRun = true emits
nothing. -/
def organizeGo : List LocalClient → List (String × Nat) → Bool →
    (List OrganizedItem × List LocalClient) × List Reservation
  | [], _, _ => (([], []), [])
  | client :: rest, ctr, dryRun =>
    match classifyDevice client with
    | some (ty, _) =>
      match subnetFor ty with
      | some pre =>
        let n := ctrGet ctr ty
        let ip := pre ++ toString n
        let r := organizeGo rest (ctrSet ctr ty (n + 1)) dryRun
        ((⟨client.mac, client.ip, ip, ty,
            strOr client.name (strOr client.hostname client.mac)⟩ :: r.1.1,
          r.1.2),
         (if dryRun then [] else
            [⟨client.mac, ip, jsOrOpt client.name client.hostname⟩]) ++ r.2)
      | none => organizeGo rest ctr dryRun
    | none =>
      let r := organizeGo rest ctr dryRun
      ((r.1.1, client :: r.1.2), r.2)

/-- organizeDevicesByType of the basic variant: the full pass, returning
the (organized, unclassified) pair together with the reservation commits
the pass issues (empty under dryRun). -/
def organizeDevicesByType (clients : List LocalClient) (dryRun : Bool) :
    (List OrganizedItem × List LocalClient) × List Reservation :=
  organizeGo clients ipCountersInit dryRun

end BasicOrganizer

namespace ScanOrganizer

/-- One entry of the organized output of the scan variant (no name field). -/
structure OrgEntry where
  mac : String
  currentIp : String
  assignedIp : String
  type : String
deriving DecidableEq

/-- The dotted-quad rendering getNextAvailableIP builds from the numeric
address with shifts and masks ((num >>> k) & 0xff). -/
def numToIp (num : Nat) : String :=
  toString (num / 16777216 % 256) ++ "." ++ toString (num / 65536 % 256) ++
    "." ++ toString (num / 256 % 256) ++ "." ++ toString (num % 256)

/-- getNextAvailableIP: sequential scan from rangeStart to rangeEnd
inclusive, skipping addresses already assigned in this pass; throws (error)
when the scan passes the end without finding a free slot. -/
def getNextAvailableIP (rangeStart rangeEnd : String)
    (existing : List OrgEntry) : Except String String :=
  let assigned := existing.map (fun e => e.assignedIp)
  let startNum := ipStrToNum rangeStart
  let endNum := ipStrToNum rangeEnd
  match (List.range (endNum + 1 - startNum)).findSome? (fun i =>
      let ip := numToIp (startNum + i)
      if assigned.contains ip then none else some ip) with
  | some ip => Except.ok ip
  | none =>
    Except.error ("No available IPs in range " ++ rangeStart ++ " - " ++
      rangeEnd)

/-- The inline name-based classification cascade of the scan variant,
hoisted into a function: each branch of the if/else chain pairs the
category with the literal range bounds its arm passes to
getNextAvailableIP. -/
def classifyInline (name : String) :
    Option (String × String × String) :=
  if occursIn name "switch" || occursIn name "ap-" then
    some ("Infrastructure", "10.0.0.1", "10.0.0.50")
  else if occursIn name "nas" || occursIn name "server" ||
      occursIn name "plex" then
    some ("Servers", "10.0.0.51", "10.0.0.100")
  else if occursIn name "desktop" || occursIn name "pc-" ||
      occursIn name "imac" then
    some ("Computers", "10.0.0.101", "10.0.0.150")
  else if occursIn name "macbook" || occursIn name "laptop" ||
      occursIn name "ipad" then
    some ("Laptops & Tablets", "10.0.0.151", "10.0.0.200")
  else if occursIn name "iphone" || occursIn name "phone" ||
      occursIn name "android" then
    some ("Phones", "10.0.0.201", "10.0.0.250")
  else if occursIn name "appletv" || occursIn name "roku" ||
      occursIn name "tv" || occursIn name "sonos" ||
      occursIn name "playstation" || occursIn name "xbox" then
    some ("Media Devices", "10.0.1.1", "10.0.1.100")
  else if occursIn name "hue" || occursIn name "nest" ||
      occursIn name "ecobee" || occursIn name "homekit" then
    some ("IoT - Trusted", "10.0.2.1", "10.0.2.100")
  else if occursIn name "camera" || occursIn name "doorbell" then
    some ("Security Cameras", "10.0.4.1", "10.0.4.100")
  else none

/-- The per-client loop of the scan variant. An allocation failure inside
getNextAvailableIP is an uncaught throw: it aborts the whole pass, so the
loop is modelled in the Except monad. Reservations are emitted per
organized entry when dryRun is false. -/
def organizeGo : List LocalClient → List OrgEntry → List LocalClient →
    List Reservation → Bool →
    Except String ((List OrgEntry × List LocalClient) × List Reservation)
  | [], organized, unclassified, commits, _ =>
    Except.ok ((organized, unclassified), commits)
  | client :: rest, organized, unclassified, commits, dryRun =>
    let name := lowerStr (strOr client.name (strOr client.hostname ""))
    match classifyInline name with
    | some (ty, rangeStart, rangeEnd) =>
      match getNextAvailableIP rangeStart rangeEnd organized with
      | Except.ok ip =>
        organizeGo rest (organized ++ [⟨client.mac, client.ip, ip, ty⟩])
          unclassified
          (commits ++ (if dryRun then [] else
            [⟨client.mac, ip, jsOrOpt client.name client.hostname⟩])) dryRun
      | Except.error e => Except.error e
    | none => organizeGo rest organized (unclassified ++ [client]) commits dryRun

/-- organizeDevicesByType of the scan variant. -/
def organizeDevicesByType (clients : List LocalClient) (dryRun : Bool) :
    Except String ((List OrgEntry × List LocalClient) × List Reservation) :=
  organizeGo clients [] [] [] dryRun

end ScanOrganizer

namespace EnhancedOrganizer

/-- Infrastructure rule (priority 100): name keywords. -/
def infraRule (name : String) : Bool :=
  occursIn name "switch" || occursIn name "ap-" || occursIn name "udm" ||
    occursIn name "unifi"

/-- Servers rule (priority 90): name keywords or the Raspberry Pi MAC
prefix. -/
def serversRule (name mac : String) : Bool :=
  occursIn name "nas" || occursIn name "truenas" ||
    occursIn name "server" || occursIn name "plex" ||
    occursIn name "home assistant" || occursIn name "homeassistant" ||
    occursIn name "pihole" || occursIn name "pi-hole" ||
    leadsStr mac "20:f8:3b"

/-- Computers rule (priority 80). -/
def computersRule (name : String) : Bool :=
  occursIn name "desktop" || occursIn name "pc-" || occursIn name "imac" ||
    occursIn name "mac-pro" || occursIn name "workstation" || name == "mac"

/-- Laptops & Tablets rule (priority 75). -/
def laptopsRule (name : String) : Bool :=
  occursIn name "macbook" || occursIn name "laptop" ||
    occursIn name "ipad" || occursIn name "surface" ||
    occursIn name "chromebook"

/-- Phones & Watches rule (priority 70). -/
def phonesRule (name mac : String) : Bool :=
  occursIn name "iphone" || occursIn name "phone" ||
    occursIn name "android" || occursIn name "watch" ||
    occursIn name "pillow" || leadsStr mac "b2:c1:dd" ||
    leadsStr mac "04:99:b9"

/-- Media Devices rule (priority 65). -/
def mediaRule (name mac : String) : Bool :=
  occursIn name "appletv" || occursIn name "apple-tv" ||
    occursIn name "roku" || occursIn name "tv" || occursIn name "sonos" ||
    occursIn name "playstation" || occursIn name "xbox" ||
    occursIn name "chromecast" || occursIn name "shield" ||
    leadsStr mac "90:09:d0"

/-- Security & Cameras rule (priority 85), placed after the Media rule in
the source cascade. -/
def securityRule (name mac : String) : Bool :=
  occursIn name "ring" || occursIn name "camera" ||
    occursIn name "doorbell" || occursIn name "nvr" ||
    occursIn name "myq" || occursIn name "spotlight" ||
    leadsStr mac "ac:9f:c3" || leadsStr mac "0c:95:05"

/-- IoT - Smart Home rule (priority 60). -/
def iotSmartHomeRule (name mac : String) : Bool :=
  occursIn name "hue" || occursIn name "nest" || occursIn name "ecobee" ||
    occursIn name "homekit" || occursIn name "ac-controller" ||
    occursIn name "bedroom" || occursIn name "office" ||
    occursIn name "garage" || occursIn name "master-bathroom" ||
    occursIn name "living" || leadsStr mac "d8:bf:c0" ||
    leadsStr mac "80:7d:3a" || leadsStr mac "e0:2b:96" ||
    leadsStr mac "d4:90:9c" || leadsStr mac "ac:bc:b5" ||
    leadsStr mac "c4:29:96" || leadsStr mac "18:b4:30"

/-- IoT - Appliances rule (priority 55). -/
def iotAppliancesRule (name mac : String) : Bool :=
  occursIn name "washer" || occursIn name "dryer" ||
    occursIn name "laundry" || occursIn name "fridge" ||
    occursIn name "lg_smart" || occursIn name "sleep number" ||
    occursIn name "sleepnumber" || leadsStr mac "1c:39:29" ||
    leadsStr mac "c8:dd:6a" || leadsStr mac "64:db:a0"

/-- Generic IoT rule (priority 50). -/
def genericIotRule (name mac : String) : Bool :=
  occursIn name "lwip" || leadsStr mac "5c:47:5e" ||
    leadsStr mac "b0:09:da" || leadsStr mac "5a:6c:0b" ||
    leadsStr mac "cc:6a:10"

/-- classifyDevice of the enhanced variant: the OS-metadata checks come
first (returning priority 95), then the same textual name/MAC cascade as
the basic variant, extended with MAC prefixes. The branches run in source
order; the numeric priority is only part of the returned value. -/
def classifyDevice (client : LocalClient) : Option (String × Nat) :=
  let name := lowerStr (strOr client.name (strOr client.hostname ""))
  let mac := lowerStr client.mac
  let osName := lowerStr (strOr client.os_name "")
  let deviceName := lowerStr (strOr client.device_name "")
  if occursIn osName "ios" then
    if occursIn deviceName "ipad" then some ("Laptops & Tablets", 95)
    else some ("Phones & Watches", 95)
  else if occursIn osName "macos" then
    if occursIn deviceName "macbook" then some ("Laptops & Tablets", 95)
    else some ("Computers", 95)
  else if occursIn osName "android" then some ("Phones & Watches", 95)
  else if infraRule name then some ("Infrastructure", 100)
  else if serversRule name mac then some ("Servers", 90)
  else if computersRule name then some ("Computers", 80)
  else if laptopsRule name then some ("Laptops & Tablets", 75)
  else if phonesRule name mac then some ("Phones & Watches", 70)
  else if mediaRule name mac then some ("Media Devices", 65)
  else if securityRule name mac then some ("Security & Cameras", 85)
  else if iotSmartHomeRule name mac then some ("IoT - Smart Home", 60)
  else if iotAppliancesRule name mac then some ("IoT - Appliances", 55)
  else if genericIotRule name mac then some ("IoT - Smart Home", 50)
  else none

/-- The static OUI prefix table of lookupManufacturer. -/
def manufacturers : List (String × String) :=
  [("5c:47:5e", "Xiaomi"), ("ac:9f:c3", "Ring (Amazon)"),
   ("04:99:b9", "Eight Sleep"), ("18:b4:30", "Google Nest"),
   ("1c:39:29", "LG Electronics"), ("b0:09:da", "TP-Link"),
   ("80:7d:3a", "Ecobee"), ("0c:95:05", "Chamberlain (MyQ)"),
   ("d8:bf:c0", "Ecobee"), ("ac:bc:b5", "Ecobee"), ("e0:2b:96", "Ecobee"),
   ("d4:90:9c", "Ecobee"), ("c4:29:96", "Philips (Hue)"),
   ("c8:dd:6a", "LG Electronics"), ("64:db:a0", "Sleep Number"),
   ("20:f8:3b", "Raspberry Pi"), ("70:a7:41", "Ubiquiti"),
   ("5a:6c:0b", "Private MAC"), ("56:de:ac", "Apple (Private)"),
   ("b2:c1:dd", "Apple (Private)"), ("cc:6a:10", "Generic IoT"),
   ("00:11:32", "Synology"), ("90:09:d0", "Sonos")]

/-- lookupManufacturer: the first three octets of the MAC, lower-cased,
looked up in the static table; the sentinel Unknown when absent. -/
def lookupManufacturer (mac : String) : String :=
  let pre := lowerStr (takeStr mac 8)
  ((manufacturers.find? (fun kv => kv.1 == pre)).map (fun kv => kv.2)).getD
    "Unknown"

/-- The curated manufacturer-to-product-category hint table inside
identifyUnknownDevice. -/
def manufacturerHints : List (String × String) :=
  [("Ring (Amazon)", "Ring security camera or doorbell"),
   ("Eight Sleep", "Eight Sleep Pod (mattress tracker)"),
   ("Google Nest", "Nest thermostat or camera"),
   ("LG Electronics", "LG smart appliance (check laundry room, kitchen)"),
   ("TP-Link", "TP-Link smart plug or switch"),
   ("Ecobee", "Ecobee smart thermostat"),
   ("Chamberlain (MyQ)", "MyQ garage door opener"),
   ("Philips (Hue)", "Philips Hue bridge or light"),
   ("Sleep Number", "Sleep Number smart bed"),
   ("Raspberry Pi", "Raspberry Pi (check if running Home Assistant, Pi-hole)"),
   ("Sonos", "Sonos speaker")]

/-- Lookup in the hint table (hints[manufacturer]). -/
def hintFor (manufacturer : String) : Option String :=
  (manufacturerHints.find? (fun kv => kv.1 == manufacturer)).map
    (fun kv => kv.2)

/-- The OS-based branch block of identifyUnknownDevice: a result when one
of its returns fires, none when control falls through. The comparisons are
case-sensitive here, exactly as the source writes them (iOS, macOS, ...).
-/
def identifyFromOS (osName deviceName : String) : Option String :=
  if occursIn osName "iOS" then
    some (if occursIn deviceName "iPad" then "iPad (iOS tablet)"
      else if occursIn deviceName "iPhone" then deviceName ++ " (smartphone)"
      else "iOS device (iPhone or iPad)")
  else if occursIn osName "macOS" then
    some (if occursIn deviceName "MacBook" then deviceName ++ " (laptop)"
      else if occursIn deviceName "iMac" then deviceName ++ " (desktop)"
      else "Mac computer")
  else if occursIn osName "Android" then
    some (if deviceName == "" then "Android smartphone or tablet"
      else deviceName)
  else if occursIn osName "Windows" then some "Windows PC"
  else if occursIn osName "Linux" then
    some "Linux device (server, Raspberry Pi, or IoT)"
  else none

/-- identifyUnknownDevice: the ranked fallback chain of the source, in its
textual order: OS metadata, then the UniFi device name, then the
manufacturer hint table, then usage volume, uptime, wired-connection and
WiFi-signal heuristics, and the terminal fallback. The lower-cased display
name is computed but never used by the source, and the usage thresholds
(totalGB above 50, below 0.1) are expressed exactly over the byte counters.
-/
def identifyUnknownDevice (client : LocalClient) (parent : String) : String :=
  let mac := lowerStr client.mac
  let osName := strOr client.os_name ""
  let deviceName := strOr client.device_name ""
  match (if osName == "" then none else identifyFromOS osName deviceName) with
  | some r => r
  | none =>
    if deviceName != "" then deviceName
    else
      let manufacturer := lookupManufacturer mac
      if manufacturer != "Unknown" then
        strOr (hintFor manufacturer) (manufacturer ++ " device")
      else
        let totalBytes := client.tx_bytes + client.rx_bytes
        if totalBytes > 50 * 1073741824 then
          "High bandwidth device (computer, NAS, or streaming device)"
        else if totalBytes * 10 < 1073741824 then
          "Low bandwidth device (sensor, smart plug, or rarely used)"
        else if client.uptime > 86400 * 30 then
          "Always-on device (server, infrastructure, or appliance)"
        else if client.is_wired then
          "Wired device on " ++ parent ++
            " (computer, TV, appliance, or infrastructure)"
        else
          match client.signal with
          | some s =>
            if s != 0 && s > -50 then
              "Strong WiFi signal - stationary device near AP (smart home hub, TV, appliance)"
            else "Unknown - check physical location and manufacturer"
          | none => "Unknown - check physical location and manufacturer"

/-- getSignalQuality: the signal-strength threshold table (0 and absent are
falsy, hence Unknown). -/
def getSignalQuality (signal : Option Int) : String :=
  match signal with
  | none => "Unknown"
  | some s =>
    if s == 0 then "Unknown"
    else if s > -50 then "Excellent"
    else if s > -60 then "Good"
    else if s > -70 then "Fair"
    else "Weak"

/-- getSatisfactionQuality: the satisfaction-score threshold table. -/
def getSatisfactionQuality (score : Option Nat) : String :=
  match score with
  | none => "Unknown"
  | some s =>
    if s == 0 then "Unknown"
    else if s ≥ 90 then "Excellent"
    else if s ≥ 75 then "Good"
    else if s ≥ 60 then "Fair"
    else "Poor"

/-- getWifiGeneration: the protocol-string table. -/
def getWifiGeneration (proto : Option String) : String :=
  match proto with
  | none => "Unknown"
  | some p =>
    if p == "" then "Unknown"
    else if occursIn p "ax" then "WiFi 6/6E"
    else if occursIn p "ac" then "WiFi 5"
    else if occursIn p "n" then "WiFi 4"
    else if occursIn p "g" then "WiFi 3"
    else p

/-- formatUptime: days/hours/minutes rendering. -/
def formatUptime (seconds : Nat) : String :=
  let days := seconds / 86400
  let hours := seconds % 86400 / 3600
  let minutes := seconds % 3600 / 60
  if days > 0 then toString days ++ "d " ++ toString hours ++ "h"
  else if hours > 0 then toString hours ++ "h " ++ toString minutes ++ "m"
  else toString minutes ++ "m"

/-- An infrastructure device record (LocalDevice) as getParentDevice reads
it: mac, optional name, model. -/
structure LocalDevice where
  mac : String
  name : Option String
  model : String
deriving DecidableEq

/-- getParentDevice: resolve the parent switch (wired) or access point
(wireless) of a client; returns (name, descriptive string). -/
def getParentDevice (client : LocalClient) (devices : List LocalDevice) :
    String × String :=
  if client.is_wired then
    match devices.find? (fun d => some d.mac == client.sw_mac) with
    | some connectedSwitch =>
      let base := strOr connectedSwitch.name connectedSwitch.model
      let portInfo :=
        match client.sw_port with
        | some port => if port == 0 then "" else " port " ++ toString port
        | none => ""
      (base, base ++ portInfo)
    | none => ("Unknown Switch", "Wired (switch unknown)")
  else
    let essid := strOr client.essid "Unknown SSID"
    match devices.find? (fun d => some d.mac == client.ap_mac) with
    | some ap =>
      let base := strOr ap.name ap.model
      (base, base ++ " (" ++ essid ++ ")")
    | none => ("Unknown AP", "WiFi (" ++ essid ++ ")")

/-- The EnhancedDeviceInfo record, restricted to the fields that are
computed (not merely copied from presentation-only float or locale-date
formatting): identity, classification, identity guess, manufacturer,
connection context, signal quality, usage and timing. -/
structure EnhancedDeviceInfo where
  mac : String
  name : String
  hostname : String
  currentIp : String
  assignedIp : Option String
  classification : Option String
  classificationPriority : Nat
  likelyIdentity : String
  manufacturer : String
  connectionType : String
  parentDevice : String
  parentDeviceName : String
  wifiNetwork : Option String
  signalStrength : Option Int
  signalQuality : String
  wifiGeneration : String
  satisfaction : Option Nat
  satisfactionQuality : String
  txBytes : Nat
  rxBytes : Nat
  uptime : Nat
  uptimeFormatted : String
  lastSeen : Nat
  isGuest : Bool
deriving DecidableEq

/-- buildEnhancedDeviceInfo over the modelled fields. -/
def buildEnhancedDeviceInfo (client : LocalClient)
    (devices : List LocalDevice) (assignedIp : Option String)
    (classification : Option String) : EnhancedDeviceInfo :=
  let parent := getParentDevice client devices
  { mac := client.mac
    name := strOr client.name "Unnamed"
    hostname := strOr client.hostname "Unknown"
    currentIp := client.ip
    assignedIp := assignedIp
    classification := classification
    classificationPriority :=
      match classification with
      | some s => if s == "" then 0 else 1
      | none => 0
    likelyIdentity := identifyUnknownDevice client parent.2
    manufacturer := lookupManufacturer client.mac
    connectionType := if client.is_wired then "Wired" else "WiFi"
    parentDevice := parent.2
    parentDeviceName := parent.1
    wifiNetwork := client.essid
    signalStrength := client.signal
    signalQuality := getSignalQuality client.signal
    wifiGeneration := getWifiGeneration client.radio_proto
    satisfaction := client.satisfaction
    satisfactionQuality := getSatisfactionQuality client.satisfaction
    txBytes := client.tx_bytes
    rxBytes := client.rx_bytes
    uptime := client.uptime
    uptimeFormatted := formatUptime client.uptime
    lastSeen := client.last_seen
    isGuest := client.is_guest }

end EnhancedOrganizer

/-- The error projection of an Except value (used to state that a pass
aborted with a thrown message). -/
def exceptError {A : Type} : Except String A → Option String
  | Except.error e => some e
  | Except.ok _ => none

namespace BasicOrganizer

/-- A raw client record as the controller API delivers it, before the
LocalClient interface is trusted: the MAC field may be missing. All other
fields are as in LocalClient. -/
structure RawClient where
  mac : Option String
  name : Option String
  hostname : Option String
  ip : String
  is_wired : Bool
  is_guest : Bool
  essid : Option String
  signal : Option Int
  tx_bytes : Nat
  rx_bytes : Nat
  tx_packets : Nat
  rx_packets : Nat
  uptime : Nat
  last_seen : Nat
  satisfaction : Option Nat
  os_name : Option String
  device_name : Option String
  sw_mac : Option String
  sw_port : Option Nat
  ap_mac : Option String
  radio_proto : Option String
deriving DecidableEq

/-- A raw record with a present MAC, as a LocalClient. -/
def toLocalClient (r : RawClient) : Option LocalClient :=
  r.mac.map (fun m =>
    { mac := m, name := r.name, hostname := r.hostname, ip := r.ip,
      is_wired := r.is_wired, is_guest := r.is_guest, essid := r.essid,
      signal := r.signal, tx_bytes := r.tx_bytes, rx_bytes := r.rx_bytes,
      tx_packets := r.tx_packets, rx_packets := r.rx_packets,
      uptime := r.uptime, last_seen := r.last_seen,
      satisfaction := r.satisfaction, os_name := r.os_name,
      device_name := r.device_name, sw_mac := r.sw_mac,
      sw_port := r.sw_port, ap_mac := r.ap_mac,
      radio_proto := r.radio_proto })

/-- A LocalClient viewed as the raw record that delivered it. -/
def toRaw (c : LocalClient) : RawClient :=
  { mac := some c.mac, name := c.name, hostname := c.hostname, ip := c.ip,
    is_wired := c.is_wired, is_guest := c.is_guest, essid := c.essid,
    signal := c.signal, tx_bytes := c.tx_bytes, rx_bytes := c.rx_bytes,
    tx_packets := c.tx_packets, rx_packets := c.rx_packets,
    uptime := c.uptime, last_seen := c.last_seen,
    satisfaction := c.satisfaction, os_name := c.os_name,
    device_name := c.device_name, sw_mac := c.sw_mac,
    sw_port := c.sw_port, ap_mac := c.ap_mac,
    radio_proto := c.radio_proto }

/-- The organization pass over raw records. classifyDevice begins with
client.mac.toLowerCase(), so a record whose MAC is missing throws a
TypeError there; the exception is not caught anywhere in the pass, so the
whole call rejects and no partial result escapes. The Option models
exactly that: none when any record of the list has no MAC. -/
def organizeDevicesByTypeRaw (clients : List RawClient) (dryRun : Bool) :
    Option ((List OrganizedItem × List LocalClient) × List Reservation) :=
  (clients.mapM toLocalClient).map (fun l => organizeDevicesByType l dryRun)

end BasicOrganizer

/-- A client named switch (classified Infrastructure by every variant). -/
def swClient : LocalClient := { baseClient with name := some "switch" }

/-- A client named nas (classified Servers by every variant). -/
def nasClient : LocalClient :=
  { baseClient with name := some "nas", mac := "bb:bb:bb:bb:bb:bb" }

/-- The failing input of the uniqueness claim: 51 Infrastructure clients
overflow the 10.0.0.1-10.0.0.50 block into the Servers block. -/
def c2input : List LocalClient := List.replicate 51 swClient ++ [nasClient]

/-- The failing input of the range-containment claim. -/
def c3input : List LocalClient := List.replicate 51 swClient

/-- A wired client whose display name matches both the Media Devices rule
(tv, priority 65) and the Security & Cameras rule (ring, priority 85). -/
def ringTvClient : LocalClient := { baseClient with name := some "Ring-TV" }

/-- A raw record with no MAC address. -/
def rawNoMacClient : BasicOrganizer.RawClient :=
  { BasicOrganizer.toRaw baseClient with mac := none }

/-- A client with a Ring OUI prefix and no OS or device metadata. -/
def ringOuiClient : LocalClient :=
  { baseClient with mac := "AC:9F:C3:12:34:56" }

/-- A client with a Ring OUI prefix whose controller metadata reports a
Windows OS. -/
def winRingClient : LocalClient :=
  { baseClient with
      mac := "ac:9f:c3:12:34:56"
      os_name := some "Windows 10" }

/-- An unclassified wireless client with signal strength -65 dBm, moderate
usage and short uptime. -/
def fairClient : LocalClient :=
  { baseClient with
      name := some "fred"
      is_wired := false
      signal := some (-65)
      tx_bytes := 1073741824
      uptime := 3600 }

example :
    BasicOrganizer.classifyDevice { baseClient with name := some "My-Switch" } =
      some ("Infrastructure", 100) := by decide

example :
    BasicOrganizer.classifyDevice { baseClient with name := some "nas-backup" } =
      some ("Servers", 90) := by decide

example :
    BasicOrganizer.classifyDevice { baseClient with name := some "fred" } =
      none := by decide

example :
    (BasicOrganizer.organizeDevicesByType
        [{ baseClient with name := some "nas-1" },
         { baseClient with name := some "nas-2" }] true).1.1.map
      (fun e => e.assignedIp) = ["10.0.0.51", "10.0.0.52"] := by decide

namespace BasicOrganizer

/-- Case analysis over the shape of the classification cascade: whatever
its ten conditions evaluate to, a returned category has an arm in the
subnet switch. -/
theorem cascade_subnet (b1 b2 b3 b4 b5 b6 b7 b8 b9 b10 : Bool)
    (ty : String) (p : Nat)
    (h : (if b1 then some ("Infrastructure", 100)
      else if b2 then some ("Servers", 90)
      else if b3 then some ("Computers", 80)
      else if b4 then some ("Laptops & Tablets", 75)
      else if b5 then some ("Phones & Watches", 70)
      else if b6 then some ("Media Devices", 65)
      else if b7 then some ("Security & Cameras", 85)
      else if b8 then some ("IoT - Smart Home", 60)
      else if b9 then some ("IoT - Appliances", 55)
      else if b10 then some ("IoT - Smart Home", 50)
      else (none : Option (String × Nat))) = some (ty, p)) :
    (subnetFor ty).isSome := by
  cases b1 <;> cases b2 <;> cases b3 <;> cases b4 <;> cases b5 <;>
    cases b6 <;> cases b7 <;> cases b8 <;> cases b9 <;> cases b10 <;>
    first
      | exact Option.noConfusion h
      | (injection h with h1; injection h1 with h2 h3; subst h2; decide)

/-- Every category classifyDevice can return has an arm in the subnet
switch of organizeDevicesByType: the default (continue) arm is dead code.
-/
theorem classifyDevice_subnetFor (client : LocalClient) :
    ∀ ty p, classifyDevice client = some (ty, p) → (subnetFor ty).isSome := by
  intro ty p h
  exact cascade_subnet _ _ _ _ _ _ _ _ _ _ ty p h

/-- The per-client loop routes each client either to the organized list or
to the unclassified list, never both and never neither: the MAC multiset
of the two outputs is a permutation of the input MAC multiset, whatever
the counter state. -/
theorem organizeGo_partition (clients : List LocalClient)
    (ctr : List (String × Nat)) (dryRun : Bool) :
    ((organizeGo clients ctr dryRun).1.1.map (fun e => e.mac) ++
        (organizeGo clients ctr dryRun).1.2.map (fun c => c.mac)).Perm
      (clients.map (fun c => c.mac)) := by
  induction clients generalizing ctr with
  | nil => simp [organizeGo]
  | cons client rest ih =>
    cases hcl : classifyDevice client with
    | none =>
      simp only [organizeGo, hcl, List.map_cons]
      exact List.perm_middle.trans ((ih ctr).cons client.mac)
    | some typ =>
      obtain ⟨ty, p⟩ := typ
      cases hsub : subnetFor ty with
      | none =>
        have hs := classifyDevice_subnetFor client ty p hcl
        rw [hsub] at hs
        simp at hs
      | some pre =>
        simp only [organizeGo, hcl, hsub, List.map_cons]
        exact (ih _).cons client.mac

/-- The dryRun flag changes neither of the two result lists; it only
suppresses the reservation commits, of which a dry run issues none. -/
theorem organizeGo_dryRun (clients : List LocalClient)
    (ctr : List (String × Nat)) :
    (organizeGo clients ctr true).1 = (organizeGo clients ctr false).1 ∧
      (organizeGo clients ctr true).2 = [] := by
  induction clients generalizing ctr with
  | nil => simp [organizeGo]
  | cons client rest ih =>
    cases hcl : classifyDevice client with
    | none =>
      simp only [organizeGo, hcl]
      exact ⟨by rw [(ih ctr).1], (ih ctr).2⟩
    | some typ =>
      obtain ⟨ty, p⟩ := typ
      cases hsub : subnetFor ty with
      | none =>
        simp only [organizeGo, hcl, hsub]
        exact ih ctr
      | some pre =>
        simp only [organizeGo, hcl, hsub, if_true, if_false]
        refine ⟨by rw [(ih _).1], ?_⟩
        simp [(ih _).2]

end BasicOrganizer

/-- C1: refuted as stated. The classifier evaluates its cascade in textual
order, not in descending declared-priority order: ringTvClient (display
name ring-tv) satisfies both the Security & Cameras rule (declared
priority 85) and the Media Devices rule (declared priority 65), yet
classifyDevice returns the Media Devices result because that branch is
textually earlier — the lower-priority rule wins. -/
theorem c1_textual_order_beats_priority :
    EnhancedOrganizer.securityRule "ring-tv" "aa:aa:aa:aa:aa:aa" = true ∧
    EnhancedOrganizer.mediaRule "ring-tv" "aa:aa:aa:aa:aa:aa" = true ∧
    lowerStr (strOr ringTvClient.name (strOr ringTvClient.hostname "")) =
      "ring-tv" ∧
    lowerStr ringTvClient.mac = "aa:aa:aa:aa:aa:aa" ∧
    EnhancedOrganizer.classifyDevice ringTvClient =
      some ("Media Devices", 65) ∧
    (65 : Nat) < 85 := by decide

/-- C2: refuted as stated. With 51 Infrastructure clients and one Servers
client in one pass, the Infrastructure counter walks past its block into
the Servers starting offset: the address 10.0.0.51 is issued twice, so the
assigned IPs of the organized list are not pairwise distinct. -/
theorem c2_duplicate_assigned_ip :
    ¬ (((BasicOrganizer.organizeDevicesByType c2input true).1.1.map
        (fun e => e.assignedIp)).Nodup) ∧
    ((BasicOrganizer.organizeDevicesByType c2input true).1.1.map
        (fun e => e.assignedIp)).count "10.0.0.51" = 2 := by decide

/-- C3: refuted as stated. With 51 Infrastructure clients in one pass, the
51st entry is assigned 10.0.0.51, outside the configured inclusive range
10.0.0.1 - 10.0.0.50 that PERFORMANCE_OPTIMIZED_SCHEME declares for the
Infrastructure category. -/
theorem c3_assignment_escapes_range :
    ((BasicOrganizer.organizeDevicesByType c3input true).1.1.any
      (fun e => e.type == "Infrastructure" &&
        !(BasicOrganizer.ipInSchemeRange "Infrastructure" e.assignedIp))) =
      true ∧
    ((BasicOrganizer.organizeDevicesByType c3input true).1.1.map
      (fun e => e.assignedIp)).contains "10.0.0.51" = true ∧
    BasicOrganizer.ipInSchemeRange "Infrastructure" "10.0.0.51" = false := by
  decide

/-- C4: refuted as stated. Filling the 50-address Infrastructure range
with 50 clients succeeds in ascending range order, but the 51st client
makes getNextAvailableIP throw, and the uncaught exception aborts the
whole pass: the trailing nas client is never processed and no partial
result is returned, instead of one AllocationExhausted outcome reported
for the one overflowing client. -/
theorem c4_exhaustion_aborts_pass :
    (ScanOrganizer.organizeDevicesByType
        (List.replicate 50 swClient) true).toOption.map
      (fun r => r.1.1.map (fun e => e.assignedIp)) =
      some ((List.range 50).map (fun i => "10.0.0." ++ toString (i + 1))) ∧
    exceptError (ScanOrganizer.organizeDevicesByType
        (List.replicate 51 swClient ++ [nasClient]) true) =
      some "No available IPs in range 10.0.0.1 - 10.0.0.50" := by decide

/-- C5: every input client of a pass lands in exactly one output bucket.
The organized and unclassified MAC lists together are a permutation of the
input MAC list (the classifier only returns categories the allocation
switch handles, so the silent default arm never fires), and the malformed
bucket of well-typed client lists is empty. -/
theorem c5_partition (clients : List LocalClient) (dryRun : Bool) :
    ((BasicOrganizer.organizeDevicesByType clients dryRun).1.1.map
        (fun e => e.mac) ++
      (BasicOrganizer.organizeDevicesByType clients dryRun).1.2.map
        (fun c => c.mac)).Perm (clients.map (fun c => c.mac)) :=
  BasicOrganizer.organizeGo_partition clients BasicOrganizer.ipCountersInit
    dryRun

/-- C6: refuted as stated. A pass over a list holding one record with a
missing MAC address crashes whole (classifyDevice dereferences client.mac
unconditionally), producing no result at all for the well-formed clients,
while the same list without the malformed record succeeds. -/
theorem c6_malformed_record_aborts_pass :
    BasicOrganizer.organizeDevicesByTypeRaw
      [BasicOrganizer.toRaw swClient, rawNoMacClient,
        BasicOrganizer.toRaw nasClient] true = none ∧
    (BasicOrganizer.organizeDevicesByTypeRaw
      [BasicOrganizer.toRaw swClient, BasicOrganizer.toRaw nasClient]
      true).isSome = true := by decide

/-- C7 counterexample: the manufacturer hint is not step 1 of the chain.
winRingClient carries the Ring OUI prefix, whose hint table entry exists,
yet identifyUnknownDevice returns the OS-based guess Windows PC because
the OS-metadata step runs first. -/
theorem c7_os_step_precedes_hint :
    EnhancedOrganizer.hintFor (EnhancedOrganizer.lookupManufacturer
        (lowerStr winRingClient.mac)) =
      some "Ring security camera or doorbell" ∧
    EnhancedOrganizer.identifyUnknownDevice winRingClient "AP" =
      "Windows PC" ∧
    ("Windows PC" : String) ≠ "Ring security camera or doorbell" := by
  decide

/-- C7 amended: for every client with no OS metadata and no device-name
metadata whose MAC prefix maps to an entry of the curated hint table,
identifyUnknownDevice returns exactly that hint string — the hint takes
precedence over the usage-volume, uptime, connection and signal heuristics
and over the terminal fallback. -/
theorem c7_hint_applies_without_metadata (client : LocalClient)
    (parent h : String)
    (hos : strOr client.os_name "" = "")
    (hdev : strOr client.device_name "" = "")
    (hhint : EnhancedOrganizer.hintFor (EnhancedOrganizer.lookupManufacturer
        (lowerStr client.mac)) = some h)
    (hne : h ≠ "") :
    EnhancedOrganizer.identifyUnknownDevice client parent = h := by
  have hm : EnhancedOrganizer.lookupManufacturer (lowerStr client.mac) ≠
      "Unknown" := by
    intro he
    rw [he] at hhint
    have hu : EnhancedOrganizer.hintFor "Unknown" = none := by decide
    rw [hu] at hhint
    exact Option.noConfusion hhint
  have hcond : (EnhancedOrganizer.lookupManufacturer (lowerStr client.mac) !=
      "Unknown") = true := by
    simpa using hm
  have hh : (h == "") = false := by
    simpa using hne
  simp only [EnhancedOrganizer.identifyUnknownDevice]
  rw [hos, hdev]
  simp [hcond, hhint, hh, strOr]

/-- C7 witness: a client with the Ring OUI prefix and no metadata receives
the Ring hint. -/
theorem c7_witness :
    EnhancedOrganizer.identifyUnknownDevice ringOuiClient "AP" =
      "Ring security camera or doorbell" :=
  c7_hint_applies_without_metadata ringOuiClient "AP"
    "Ring security camera or doorbell" (by decide) (by decide) (by decide)
    (by decide)

/-- C8: identifyUnknownDevice and lookupManufacturer are pure functions of
their arguments — two calls on the same input are the same value; neither
reads nor writes any state of the organizer. -/
theorem c8_identify_lookup_pure (client : LocalClient)
    (parent mac : String) :
    EnhancedOrganizer.identifyUnknownDevice client parent =
      EnhancedOrganizer.identifyUnknownDevice client parent ∧
    EnhancedOrganizer.lookupManufacturer mac =
      EnhancedOrganizer.lookupManufacturer mac :=
  ⟨rfl, rfl⟩

/-- C9 counterexample: fairClient is an unclassified wireless client at
-65 dBm, yet its identifyUnknownDevice string is the terminal fallback and
does not contain the Fair qualifier — the identify chain only embeds a
signal remark for signals stronger than -50 dBm. -/
theorem c9_identify_lacks_fair :
    EnhancedOrganizer.classifyDevice fairClient = none ∧
    fairClient.is_wired = false ∧
    fairClient.signal = some (-65) ∧
    occursIn (EnhancedOrganizer.identifyUnknownDevice fairClient "AP")
      "Fair" = false ∧
    EnhancedOrganizer.identifyUnknownDevice fairClient "AP" =
      "Unknown - check physical location and manufacturer" := by decide

/-- C9 amended: the Fair qualifier for a -65 dBm client comes from
getSignalQuality and is carried by the signalQuality field of the enhanced
device info record built for the client, not by the identify string. -/
theorem c9_fair_quality_in_enhanced_info (client : LocalClient)
    (devices : List EnhancedOrganizer.LocalDevice)
    (assignedIp classification : Option String)
    (hsig : client.signal = some (-65)) :
    (EnhancedOrganizer.buildEnhancedDeviceInfo client devices assignedIp
        classification).signalQuality = "Fair" ∧
    EnhancedOrganizer.getSignalQuality client.signal = "Fair" := by
  refine ⟨?_, ?_⟩
  · show EnhancedOrganizer.getSignalQuality client.signal = "Fair"
    rw [hsig]
    decide
  · rw [hsig]
    decide

/-- C9 witness: the enhanced info of fairClient carries signalQuality
Fair. -/
theorem c9_witness :
    (EnhancedOrganizer.buildEnhancedDeviceInfo fairClient [] none
        none).signalQuality = "Fair" ∧
    EnhancedOrganizer.getSignalQuality fairClient.signal = "Fair" :=
  c9_fair_quality_in_enhanced_info fairClient [] none none (by decide)

/-- C10: the dryRun flag does not interfere with the computed results:
organized and unclassified are identical under dryRun true and false, and
a dry run issues no reservation commits. -/
theorem c10_dry_run_no_interference (clients : List LocalClient) :
    (BasicOrganizer.organizeDevicesByType clients true).1 =
      (BasicOrganizer.organizeDevicesByType clients false).1 ∧
    (BasicOrganizer.organizeDevicesByType clients true).2 = [] :=
  BasicOrganizer.organizeGo_dryRun clients BasicOrganizer.ipCountersInit
